import Mathlib

/-!
Verification of `pumpkin-world/src/chunk.rs` (chunk decoding, the in-memory
chunk store, and the wire codec) against its specification.

The source file is shallowly embedded below.  Pure constants and functions are
translated directly; the stateful decoding loop is translated as explicit
state passing (block list plus running cursor); Rust panics are modelled by a
distinguished `DOutcome.panic` constructor; fallible operations return
`Except` / `Option`.  External collaborators that are not part of the source
file (the nbt parser, the block registry, the coordinate utilities) are
modelled as parameters or minimal structures, as documented on each item.
-/

set_option maxRecDepth 8000

namespace Pumpkin

/-- Decidable equality of `Except` values, used to evaluate the embedded
functions on concrete inputs. -/
instance {ε α : Type} [DecidableEq ε] [DecidableEq α] : DecidableEq (Except ε α) :=
  fun x y =>
    match x, y with
    | .ok a, .ok b =>
      if h : a = b then isTrue (by rw [h]) else isFalse (by intro hc; cases hc; exact h rfl)
    | .error a, .error b =>
      if h : a = b then isTrue (by rw [h]) else isFalse (by intro hc; cases hc; exact h rfl)
    | .ok _, .error _ => isFalse (by intro hc; cases hc)
    | .error _, .ok _ => isFalse (by intro hc; cases hc)

/-- Blocks per horizontal layer, `16 * 16` (constant `CHUNK_AREA` in chunk.rs). -/
def CHUNK_AREA : Nat := 16 * 16

/-- Blocks per 16×16×16 section (constant `SUBCHUNK_VOLUME` in chunk.rs). -/
def SUBCHUNK_VOLUME : Nat := CHUNK_AREA * 16

/-- Blocks per chunk, `CHUNK_AREA * WORLD_HEIGHT`.  `WORLD_HEIGHT` is a
build-time constant defined outside the embedded file, so it is kept as a
parameter `world_height` here. -/
def CHUNK_VOLUME (world_height : Nat) : Nat := CHUNK_AREA * world_height

/-- Modelled from the spec: `BlockId` (crate::block, not in src/) is an opaque
16-bit identifier treated as a small copyable value; the default value is the
air/unset block. -/
structure BlockId where
  id : Nat
deriving DecidableEq

/-- Modelled from the spec: the default ("air"/unset) `BlockId` value. -/
def BlockId.default : BlockId := ⟨0⟩

/-- Modelled from the spec: raw-id accessor used by the wire codec. -/
def BlockId.get_id (b : BlockId) : Nat := b.id

/-- Modelled from the spec: raw-id constructor used by the wire codec. -/
def BlockId.from_id (n : Nat) : BlockId := ⟨n⟩

/-- Modelled from the spec: absolute world height (crate::coordinates, not in
src/); a wrapper around the absolute y value, built by `from_absolute` and
read back by `get_absolute`. -/
structure Height where
  absolute : Nat
deriving DecidableEq

/-- Modelled from the spec: construct a `Height` from an absolute value. -/
def Height.from_absolute (n : Nat) : Height := ⟨n⟩

/-- Modelled from the spec: read the absolute value of a `Height`. -/
def Height.get_absolute (h : Height) : Nat := h.absolute

/-- Modelled from the spec: chunk-relative block coordinates
(crate::coordinates, not in src/): x and z are chunk-relative (valid range
`[0, 16)`, pre-validated by the constructor), y is an absolute height. -/
structure ChunkRelativeBlockCoordinates where
  x : Nat
  z : Nat
  y : Height
deriving DecidableEq

/-- Modelled from the spec: 2-D chunk position (pumpkin_core, not in src/). -/
structure Vector2 where
  x : Int
  z : Int
deriving DecidableEq

/-- The two packed heightmap long arrays carried through opaquely
(struct `ChunkHeightmaps` in chunk.rs; `LongArray` is a vector of i64). -/
structure ChunkHeightmaps where
  motion_blocking : List Int
  world_surface : List Int
deriving DecidableEq

/-- The in-memory chunk store (struct `ChunkBlocks` in chunk.rs): the dense
block array in yzx order plus the heightmaps. -/
structure ChunkBlocks where
  blocks : List BlockId
  heightmap : ChunkHeightmaps
deriving DecidableEq

/-- The unit exchanged with decoder and codec (struct `ChunkData` in chunk.rs). -/
structure ChunkData where
  blocks : ChunkBlocks
  position : Vector2
deriving DecidableEq

/-- `ChunkBlocks::empty_with_heightmap`: a block array of length
`CHUNK_VOLUME` filled with the default value, with the given heightmaps. -/
def ChunkBlocks.empty_with_heightmap (world_height : Nat) (hm : ChunkHeightmaps) :
    ChunkBlocks :=
  ⟨List.replicate (CHUNK_VOLUME world_height) BlockId.default, hm⟩

/-- `ChunkBlocks::convert_index`: the linear offset of a coordinate,
`y.get_absolute() * CHUNK_AREA + z * 16 + x`. -/
def ChunkBlocks.convert_index (c : ChunkRelativeBlockCoordinates) : Nat :=
  c.y.get_absolute * CHUNK_AREA + c.z * 16 + c.x

/-- `ChunkBlocks::get_block`: read `self.blocks[convert_index(position)]`.
Indexing out of range is a panic in Rust, modelled by `none`. -/
def ChunkBlocks.get_block (cb : ChunkBlocks) (c : ChunkRelativeBlockCoordinates) :
    Option BlockId :=
  cb.blocks[ChunkBlocks.convert_index c]?

/-- `ChunkBlocks::set_block_no_heightmap_update`: replace the block at
`convert_index(position)`, returning the old block.  Indexing out of range is
a panic in Rust, modelled by `none`. -/
def ChunkBlocks.set_block_no_heightmap_update (cb : ChunkBlocks)
    (c : ChunkRelativeBlockCoordinates) (b : BlockId) :
    Option (BlockId × ChunkBlocks) :=
  (cb.blocks[ChunkBlocks.convert_index c]?).map
    (fun old => (old, { cb with blocks := cb.blocks.set (ChunkBlocks.convert_index c) b }))

/-- `ChunkBlocks::set_block`: delegates to `set_block_no_heightmap_update`
(heightmap maintenance is unimplemented in the source). -/
def ChunkBlocks.set_block (cb : ChunkBlocks) (c : ChunkRelativeBlockCoordinates)
    (b : BlockId) : Option (BlockId × ChunkBlocks) :=
  ChunkBlocks.set_block_no_heightmap_update cb c b

/-- One palette entry of a section (struct `PaletteEntry` in chunk.rs); the
property map is kept as an association list. -/
structure PaletteEntry where
  name : String
  properties : Option (List (String × String))
deriving DecidableEq

/-- A section's optional block-state record (struct `ChunkSectionBlockStates`
in chunk.rs): an optional packed long array and an ordered palette. -/
structure ChunkSectionBlockStates where
  data : Option (List Int)
  palette : List PaletteEntry
deriving DecidableEq

/-- One section of the parsed tag tree (struct `ChunkSection` in chunk.rs). -/
structure ChunkSection where
  y : Int
  block_states : Option ChunkSectionBlockStates
deriving DecidableEq

/-- The parsed chunk tag tree (struct `ChunkNbt` in chunk.rs). -/
structure ChunkNbt where
  data_version : Nat
  sections : List ChunkSection
  heightmaps : ChunkHeightmaps
deriving DecidableEq

/-- The generation-status tag (enum `ChunkStatus` in chunk.rs). -/
inductive ChunkStatus where
  | Empty
  | StructureStarts
  | StructureReferences
  | Biomes
  | Noise
  | Surface
  | Carvers
  | LiquidCarvers
  | Features
  | Light
  | Spawn
  | Heightmaps
  | Full
deriving DecidableEq

/-- Modelled from the spec: the error cause for a chunk that is not fully
generated (crate::level, not in src/). -/
inductive ChunkNotGeneratedError where
  | IncompleteGeneration
deriving DecidableEq

/-- Modelled from the spec: the error type surfaced by the decoder
(crate::level, not in src/); `UnknownBlock` is the registry resolution
failure, `ErrorDeserializingChunk` carries the tag parser's message. -/
inductive WorldError where
  | ChunkNotGenerated : ChunkNotGeneratedError → WorldError
  | ErrorDeserializingChunk : String → WorldError
  | UnknownBlock : String → WorldError
deriving DecidableEq

/-- Outcome of running a piece of Rust code that may panic, return an error,
or succeed. -/
inductive DOutcome (α : Type) where
  | panic : String → DOutcome α
  | err : WorldError → DOutcome α
  | ok : α → DOutcome α
deriving DecidableEq

/-- Bit length of the low `fuel` bits of `n` (position of the highest set bit,
plus one).  With `fuel = 64` this is `64 - leading_zeros` of a 64-bit value. -/
def bitLenFuel : Nat → Nat → Nat
  | 0, _ => 0
  | fuel + 1, n => if n = 0 then 0 else bitLenFuel fuel (n / 2) + 1

/-- The per-entry bit width computed in `ChunkData::from_bytes`:
`max(4, 64 - (palette.len() as i64 - 1).leading_zeros())`.  For `len = 0` the
cast produces `-1 : i64`, whose 64-bit pattern has no leading zeros, giving
width 64; for `len ≥ 1` the pattern is `(len - 1) % 2^64`. -/
def block_bit_size (palette_len : Nat) : Nat :=
  if palette_len = 0 then 64
  else max 4 (bitLenFuel 64 ((palette_len - 1) % 2 ^ 64))

/-- `blocks_in_pallete` in `ChunkData::from_bytes`: how many block fields fit
in one packed 64-bit word. -/
def blocks_in_pallete (w : Nat) : Nat := 64 / w

/-- The field mask `(1 << block_bit_size) - 1` in `ChunkData::from_bytes`. -/
def mask (w : Nat) : Nat := (1 <<< w) - 1

/-- The coordinate constructed for cursor position `block_index` in the
decoding loop of `ChunkData::from_bytes`:
`z = (block_index % CHUNK_AREA) / 16`,
`y = Height::from_absolute((block_index / CHUNK_AREA) as u16)` (the `as u16`
cast truncates modulo `2^16`), `x = block_index % 16`. -/
def coordsOfIndex (block_index : Nat) : ChunkRelativeBlockCoordinates :=
  { x := block_index % 16
    z := (block_index % CHUNK_AREA) / 16
    y := Height.from_absolute ((block_index / CHUNK_AREA) % 2 ^ 16) }

/-- The inner loop `for i in 0..blocks_in_pallete` of `ChunkData::from_bytes`
on one packed word `u` (already reduced to its unsigned 64-bit value): extract
the `w`-bit field at position `i`, index the palette (out-of-bounds indexing
panics), write the block at the cursor, advance the cursor, and break out of
the whole word loop (flag `true`) as soon as the cursor reaches a multiple of
`SUBCHUNK_VOLUME`. -/
def unpackFields (palette : List BlockId) (w : Nat) (u : Nat) :
    List Nat → ChunkBlocks → Nat → DOutcome (ChunkBlocks × Nat × Bool)
  | [], cb, block_index => .ok (cb, block_index, false)
  | i :: rest, cb, block_index =>
    match palette[(u >>> (i * w)) &&& mask w]? with
    | none => .panic "index out of bounds"
    | some b =>
      match ChunkBlocks.set_block_no_heightmap_update cb (coordsOfIndex block_index) b with
      | none => .panic "index out of bounds"
      | some (_, cb') =>
        if (block_index + 1) % SUBCHUNK_VOLUME = 0 then .ok (cb', block_index + 1, true)
        else unpackFields palette w u rest cb' (block_index + 1)

/-- The labelled loop `'block_loop: for block in block_data.iter()` of
`ChunkData::from_bytes`: process the packed words in order; a `true` flag from
`unpackFields` is the `break 'block_loop` of the source.  Each i64 word is
reduced to its unsigned 64-bit bit pattern (Rust's `>>` on i64 is an
arithmetic shift, but every extracted field lies within bits 0–63, so masking
the two's-complement pattern is exact). -/
def unpackWords (palette : List BlockId) (w : Nat) :
    List Int → ChunkBlocks → Nat → DOutcome (ChunkBlocks × Nat)
  | [], cb, block_index => .ok (cb, block_index)
  | word :: ws, cb, block_index =>
    match unpackFields palette w (word.emod (2 ^ 64)).toNat
        (List.range (blocks_in_pallete w)) cb block_index with
    | .panic m => .panic m
    | .err e => .err e
    | .ok (cb', block_index', true) => .ok (cb', block_index')
    | .ok (cb', block_index', false) => unpackWords palette w ws cb' block_index'

/-- The palette resolution of `ChunkData::from_bytes`:
`palette.iter().map(|e| BlockId::new(..)).collect::<Result<Vec<_>, _>>()`,
short-circuiting at the first failing entry.  The registry call
`BlockId::new` is external and passed in as `resolve`. -/
def resolvePalette (resolve : PaletteEntry → Except WorldError BlockId) :
    List PaletteEntry → Except WorldError (List BlockId)
  | [] => .ok []
  | p :: ps =>
    match resolve p with
    | .error e => .error e
    | .ok b =>
      match resolvePalette resolve ps with
      | .error e => .error e
      | .ok bs => .ok (b :: bs)

/-- The section loop `for section in chunk_data.sections.into_iter()` of
`ChunkData::from_bytes`, threading the block store and the running
`block_index` cursor:
a section with no block-state record is skipped entirely;
otherwise the palette is resolved (a failing entry aborts the decode with the
registry error);
a section with a palette but no packed array advances the cursor by
`SUBCHUNK_VOLUME` without writing;
otherwise the packed words are unpacked with `unpackWords`. -/
def processSections (resolve : PaletteEntry → Except WorldError BlockId) :
    List ChunkSection → ChunkBlocks → Nat → DOutcome (ChunkBlocks × Nat)
  | [], cb, block_index => .ok (cb, block_index)
  | s :: rest, cb, block_index =>
    match s.block_states with
    | none => processSections resolve rest cb block_index
    | some block_states =>
      match resolvePalette resolve block_states.palette with
      | .error e => .err e
      | .ok palette =>
        match block_states.data with
        | none => processSections resolve rest cb (block_index + SUBCHUNK_VOLUME)
        | some block_data =>
          match unpackWords palette (block_bit_size palette.length) block_data cb block_index with
          | .panic m => .panic m
          | .err e => .err e
          | .ok (cb', block_index') => processSections resolve rest cb' block_index'

/-- `ChunkData::from_bytes`: the full decoder.  The two external
`fastnbt::from_bytes` parses (status-only, then the whole tag tree) are passed
in as black-box functions `parseStatus` and `parseNbt`, applied to the same
raw bytes as in the source; the registry is passed in as `resolve`.  The
status parse result is unwrapped with `.expect(..)`, i.e. a parse failure
panics; a non-`Full` status fails with `IncompleteGeneration`; a failing full
parse fails with `ErrorDeserializingChunk` carrying the parser's message. -/
def ChunkData.from_bytes (world_height : Nat)
    (parseStatus : List Nat → Except String ChunkStatus)
    (parseNbt : List Nat → Except String ChunkNbt)
    (resolve : PaletteEntry → Except WorldError BlockId)
    (chunk_data : List Nat) (at_ : Vector2) : DOutcome ChunkData :=
  match parseStatus chunk_data with
  | .error _ => .panic "Failed reading chunk status."
  | .ok status =>
    if status = ChunkStatus.Full then
      match parseNbt chunk_data with
      | .error e => .err (WorldError.ErrorDeserializingChunk e)
      | .ok nbt =>
        match processSections resolve nbt.sections
            (ChunkBlocks.empty_with_heightmap world_height nbt.heightmaps) 0 with
        | .panic m => .panic m
        | .err e => .err e
        | .ok (cb, _) => .ok ⟨cb, at_⟩
    else .err (WorldError.ChunkNotGenerated ChunkNotGeneratedError.IncompleteGeneration)

/-!  The wire codec (`mod serialization` in chunk.rs): little-endian layout of
position, block array, and the two heightmap long arrays.  Writers produce a
byte list; readers consume a byte list and fail on truncation. -/

/-- Little-endian byte encoding of the low `k` bytes of `n`. -/
def toLEBytes : Nat → Nat → List Nat
  | 0, _ => []
  | k + 1, n => n % 256 :: toLEBytes k (n / 256)

/-- `writer.write_u16`. -/
def write_u16 (v : Nat) : List Nat := toLEBytes 2 v

/-- `writer.write_u64`. -/
def write_u64 (v : Nat) : List Nat := toLEBytes 8 v

/-- `writer.write_i32`: the i32 is written as its 32-bit two's-complement
pattern, little endian. -/
def write_i32 (v : Int) : List Nat := toLEBytes 4 (v.emod (2 ^ 32)).toNat

/-- `writer.write_i64`: the i64 is written as its 64-bit two's-complement
pattern, little endian. -/
def write_i64 (v : Int) : List Nat := toLEBytes 8 (v.emod (2 ^ 64)).toNat

/-- `ChunkData::write_to` (impl `Writable` in chunk.rs): position x then z,
then the `CHUNK_VOLUME` block ids as u16, then each heightmap as a u64 element
count followed by its i64 words. -/
def ChunkData.write_to (c : ChunkData) : List Nat :=
  write_i32 c.position.x ++ write_i32 c.position.z
    ++ (c.blocks.blocks.map (fun b => write_u16 b.get_id)).flatten
    ++ write_u64 c.blocks.heightmap.motion_blocking.length
    ++ (c.blocks.heightmap.motion_blocking.map write_i64).flatten
    ++ write_u64 c.blocks.heightmap.world_surface.length
    ++ (c.blocks.heightmap.world_surface.map write_i64).flatten

/-- Split the first `k` bytes off a byte list; `none` models the reader
running out of input. -/
def readBytes : Nat → List Nat → Option (List Nat × List Nat)
  | 0, bs => some ([], bs)
  | _ + 1, [] => none
  | k + 1, b :: bs => (readBytes k bs).map (fun p => (b :: p.1, p.2))

/-- Little-endian byte decoding. -/
def fromLEBytes (bs : List Nat) : Nat := bs.foldr (fun b acc => b + 256 * acc) 0

/-- Reinterpret an unsigned `w`-bit value as a signed two's-complement one. -/
def toSigned (w : Nat) (n : Nat) : Int :=
  if n < 2 ^ (w - 1) then (n : Int) else (n : Int) - 2 ^ w

/-- `reader.read_u16`. -/
def read_u16 (bs : List Nat) : Option (Nat × List Nat) :=
  (readBytes 2 bs).map (fun p => (fromLEBytes p.1, p.2))

/-- `reader.read_u64`. -/
def read_u64 (bs : List Nat) : Option (Nat × List Nat) :=
  (readBytes 8 bs).map (fun p => (fromLEBytes p.1, p.2))

/-- `reader.read_i32`. -/
def read_i32 (bs : List Nat) : Option (Int × List Nat) :=
  (readBytes 4 bs).map (fun p => (toSigned 32 (fromLEBytes p.1), p.2))

/-- `reader.read_i64`. -/
def read_i64 (bs : List Nat) : Option (Int × List Nat) :=
  (readBytes 8 bs).map (fun p => (toSigned 64 (fromLEBytes p.1), p.2))

/-- A `for _ in 0..n` read loop collecting `n` values. -/
def readLoop {α : Type} (read1 : List Nat → Option (α × List Nat)) :
    Nat → List Nat → Option (List α × List Nat)
  | 0, bs => some ([], bs)
  | n + 1, bs =>
    match read1 bs with
    | none => none
    | some (a, bs') =>
      match readLoop read1 n bs' with
      | none => none
      | some (as_, r) => some (a :: as_, r)

/-- Lift a reader result into the codec's error monad; `none` becomes the
end-of-input error of the speedy reader. -/
def liftR {α : Type} (o : Option (α × List Nat)) : Except String (α × List Nat) :=
  match o with
  | none => .error "unexpected end of input"
  | some p => .ok p

/-- `ChunkData::read_from` (impl `Readable` in chunk.rs): position, then
`CHUNK_VOLUME` block ids, then for each heightmap a u64 length prefix
followed by — as in the source — `CHUNK_VOLUME` i64 reads (the loop iterates
`0..CHUNK_VOLUME`, not `0..len`).  The final `try_into` length check fails
with a custom error when the collected block vector does not have length
`CHUNK_VOLUME`. -/
def ChunkData.read_from (world_height : Nat) (bytes : List Nat) :
    Except String ChunkData := do
  let (x, r) ← liftR (read_i32 bytes)
  let (z, r) ← liftR (read_i32 r)
  let (ids, r) ← liftR (readLoop read_u16 (CHUNK_VOLUME world_height) r)
  let blocks := ids.map BlockId.from_id
  let (_len, r) ← liftR (read_u64 r)
  let (motion, r) ← liftR (readLoop read_i64 (CHUNK_VOLUME world_height) r)
  let (_len2, r) ← liftR (read_u64 r)
  let (surface, _) ← liftR (readLoop read_i64 (CHUNK_VOLUME world_height) r)
  if blocks.length = CHUNK_VOLUME world_height then
    .ok ⟨⟨blocks, ⟨motion, surface⟩⟩, ⟨x, z⟩⟩
  else .error "Block count is not the volume of a chunk!"

/-- Whether an `Except` value is a success. -/
def exceptIsOk {ε α : Type} : Except ε α → Bool
  | .ok _ => true
  | .error _ => false

/-!  Concrete fixtures used to instantiate theorems with hypotheses and to
exhibit counterexamples. -/

/-- A registry fixture recognising the vanilla air and stone identifiers. -/
def resolveStd : PaletteEntry → Except WorldError BlockId := fun p =>
  if p.name = "minecraft:air" then .ok ⟨0⟩
  else if p.name = "minecraft:stone" then .ok ⟨1⟩
  else .error (WorldError.UnknownBlock p.name)

/-- The standard 37-word heightmap pair of an empty chunk. -/
def hmW : ChunkHeightmaps := ⟨List.replicate 37 0, List.replicate 37 0⟩

/-- An empty chunk store for world height 1 (256 blocks). -/
def cbW : ChunkBlocks := ChunkBlocks.empty_with_heightmap 1 hmW

/-- The origin chunk position. -/
def v00 : Vector2 := ⟨0, 0⟩

/-- A coordinate fixture. -/
def coordW : ChunkRelativeBlockCoordinates := ⟨3, 5, ⟨0⟩⟩

/-- A status parse that succeeds with a non-terminal status. -/
def pStatusEmpty : List Nat → Except String ChunkStatus := fun _ => .ok ChunkStatus.Empty

/-- A status parse that succeeds with the terminal status. -/
def pStatusFull : List Nat → Except String ChunkStatus := fun _ => .ok ChunkStatus.Full

/-- A status parse that fails structurally. -/
def pStatusBad : List Nat → Except String ChunkStatus := fun _ => .error "malformed status"

/-- A full tag-tree parse that fails structurally. -/
def pNbtBad : List Nat → Except String ChunkNbt := fun _ => .error "bad tag"

/-- A stone palette entry. -/
def stoneEntry : PaletteEntry := ⟨"minecraft:stone", none⟩

/-- A palette entry the registry fixture cannot resolve. -/
def badEntry : PaletteEntry := ⟨"minecraft:unknown", none⟩

/-- A section with no block-state record at all. -/
def secNone : ChunkSection := ⟨0, none⟩

/-- A section with a one-entry stone palette and no packed array. -/
def secStoneNoData : ChunkSection := ⟨0, some ⟨none, [stoneEntry]⟩⟩

/-- A section with an unresolvable palette entry. -/
def secBad : ChunkSection := ⟨0, some ⟨none, [badEntry]⟩⟩

/-- A full tag tree with a one-entry palette and a packed word holding the
out-of-range field value 1. -/
def pNbtC10 : List Nat → Except String ChunkNbt :=
  fun _ => .ok ⟨0, [⟨0, some ⟨some [1], [stoneEntry]⟩⟩], hmW⟩

/-- A chunk with a `CHUNK_VOLUME`-length block array (world height 1) and the
standard 37-word heightmaps. -/
def chunkC1 : ChunkData := ⟨⟨List.replicate 256 BlockId.default, hmW⟩, v00⟩

/-- A two-entry resolved palette. -/
def palW : List BlockId := [⟨5⟩, ⟨7⟩]

/-- A 20-block store. -/
def cb20 : ChunkBlocks := ⟨List.replicate 20 ⟨0⟩, hmW⟩

/-- The 20-block store after one width-4 word of zero fields wrote its 16
entries. -/
def cb20r : ChunkBlocks := ⟨List.replicate 16 ⟨5⟩ ++ List.replicate 4 ⟨0⟩, hmW⟩

/-!  Helper lemmas. -/

/-- Characterisation of `bitLenFuel`: for `n < 2 ^ fuel` it is the exact bit
length of `n`. -/
theorem bitLenFuel_le_iff (fuel : Nat) :
    ∀ n k : Nat, n < 2 ^ fuel → (bitLenFuel fuel n ≤ k ↔ n < 2 ^ k) := by
  induction fuel with
  | zero =>
    intro n k h
    have hn : n = 0 := by simpa using h
    subst hn
    simp [bitLenFuel, Nat.pos_pow_of_pos]
  | succ fuel ih =>
    intro n k h
    by_cases hn : n = 0
    · subst hn
      simp [bitLenFuel, Nat.pos_pow_of_pos]
    · have hdiv : n / 2 < 2 ^ fuel := by
        have hp : 2 ^ (fuel + 1) = 2 ^ fuel * 2 := pow_succ 2 fuel
        omega
      cases k with
      | zero =>
        simp only [bitLenFuel, if_neg hn, pow_zero]
        omega
      | succ k' =>
        rw [show bitLenFuel (fuel + 1) n = bitLenFuel fuel (n / 2) + 1 from by
          simp [bitLenFuel, hn]]
        rw [Nat.succ_le_succ_iff, ih (n / 2) k' hdiv]
        have hp2 : 2 ^ (k' + 1) = 2 ^ k' * 2 := pow_succ 2 k'
        omega

/-- The write position used for cursor value `i` never exceeds `i` (the `as
u16` truncation can only shrink it). -/
theorem convert_coordsOfIndex_le (i : Nat) :
    ChunkBlocks.convert_index (coordsOfIndex i) ≤ i := by
  have hp : (2 : Nat) ^ 16 = 65536 := by norm_num
  simp only [ChunkBlocks.convert_index, coordsOfIndex, Height.from_absolute,
    Height.get_absolute, CHUNK_AREA, hp]
  omega

/-- A successful `set_block_no_heightmap_update` sets exactly the converted
index and keeps the heightmap. -/
theorem set_block_ok_inv {cb : ChunkBlocks} {c : ChunkRelativeBlockCoordinates}
    {b old : BlockId} {cb' : ChunkBlocks}
    (h : ChunkBlocks.set_block_no_heightmap_update cb c b = some (old, cb')) :
    cb'.blocks = cb.blocks.set (ChunkBlocks.convert_index c) b := by
  simp only [ChunkBlocks.set_block_no_heightmap_update, Option.map_eq_some'] at h
  obtain ⟨v, _, heq⟩ := h
  have h2 := congrArg Prod.snd heq
  simp only at h2
  rw [← h2]

/-!  C3 — palette bit width. -/

/-- C3: for every palette length `L ≥ 1` (bounded by `2 ^ 63`, the range in
which the source's `as i64` cast is lossless), the decoder's bit width equals
`max 4 ⌈log2 L⌉`, entries per word is `⌊64 / w⌋`, the mask is `(1 <<< w) - 1 =
2 ^ w - 1`, and the widths at palette lengths 1, 2, 16, 17, 256 are 4, 4, 4,
5, 8. -/
theorem c3_palette_bit_width (L : Nat) (h1 : 1 ≤ L) (h2 : L ≤ 2 ^ 63) :
    block_bit_size L = max 4 (Nat.clog 2 L) ∧
    blocks_in_pallete (block_bit_size L) = 64 / block_bit_size L ∧
    mask (block_bit_size L) = 2 ^ block_bit_size L - 1 ∧
    block_bit_size 1 = 4 ∧ block_bit_size 2 = 4 ∧ block_bit_size 16 = 4 ∧
    block_bit_size 17 = 5 ∧ block_bit_size 256 = 8 := by
  have h6364 : (2 : Nat) ^ 63 ≤ 2 ^ 64 := Nat.pow_le_pow_right (by norm_num) (by norm_num)
  have hlt : L - 1 < 2 ^ 64 := by omega
  have hmod : (L - 1) % 2 ^ 64 = L - 1 := Nat.mod_eq_of_lt hlt
  have hL0 : ¬ L = 0 := by omega
  have hkey : bitLenFuel 64 (L - 1) = Nat.clog 2 L := by
    apply le_antisymm
    · rw [bitLenFuel_le_iff 64 (L - 1) _ hlt]
      have := Nat.le_pow_clog (show 1 < 2 by norm_num) L
      omega
    · rw [← Nat.le_pow_iff_clog_le (show 1 < 2 by norm_num)]
      have := (bitLenFuel_le_iff 64 (L - 1) (bitLenFuel 64 (L - 1)) hlt).1 le_rfl
      omega
  refine ⟨?_, rfl, ?_, by decide, by decide, by decide, by decide, by decide⟩
  · simp only [block_bit_size, if_neg hL0, hmod, hkey]
  · simp [mask, Nat.shiftLeft_eq]

/-- Witness for C3 at the concrete palette length 17. -/
theorem c3_palette_bit_width_witness :
    block_bit_size 17 = max 4 (Nat.clog 2 17) :=
  (c3_palette_bit_width 17 (by norm_num) (by norm_num)).1

/-!  C4 — yzx ordering of the chunk store. -/

/-- C4: for valid coordinates (x, z below 16, y below the world height), the
linear offset used by `get_block`, `set_block` and
`set_block_no_heightmap_update` is `y * 256 + z * 16 + x`. -/
theorem c4_yzx_ordering (world_height : Nat) (cb : ChunkBlocks)
    (c : ChunkRelativeBlockCoordinates) (b : BlockId)
    (_hx : c.x < 16) (_hz : c.z < 16) (_hy : c.y.get_absolute < world_height) :
    ChunkBlocks.convert_index c = c.y.get_absolute * 256 + c.z * 16 + c.x ∧
    cb.get_block c = cb.blocks[c.y.get_absolute * 256 + c.z * 16 + c.x]? ∧
    cb.set_block c b = (cb.blocks[c.y.get_absolute * 256 + c.z * 16 + c.x]?).map
      (fun old => (old,
        { cb with blocks := cb.blocks.set (c.y.get_absolute * 256 + c.z * 16 + c.x) b })) ∧
    cb.set_block_no_heightmap_update c b =
      (cb.blocks[c.y.get_absolute * 256 + c.z * 16 + c.x]?).map
      (fun old => (old,
        { cb with blocks := cb.blocks.set (c.y.get_absolute * 256 + c.z * 16 + c.x) b })) := by
  have hidx : ChunkBlocks.convert_index c = c.y.get_absolute * 256 + c.z * 16 + c.x := by
    simp [ChunkBlocks.convert_index, CHUNK_AREA]
  refine ⟨hidx, ?_, ?_, ?_⟩ <;>
    simp [ChunkBlocks.get_block, ChunkBlocks.set_block,
      ChunkBlocks.set_block_no_heightmap_update, hidx]

/-- Witness for C4 at a concrete coordinate. -/
theorem c4_yzx_ordering_witness :
    ChunkBlocks.convert_index coordW =
      Height.get_absolute coordW.y * 256 + coordW.z * 16 + coordW.x :=
  (c4_yzx_ordering 1 cbW coordW ⟨7⟩ (by decide) (by decide) (by decide)).1

/-!  C5 — completeness gate. -/

/-- C5: whenever the status parse yields any status other than `Full`, the
decoder fails with `IncompleteGeneration`, independently of the full tag-tree
parse (which is never consulted) and of the registry. -/
theorem c5_completeness_gate (world_height : Nat)
    (parseStatus : List Nat → Except String ChunkStatus)
    (parseNbt : List Nat → Except String ChunkNbt)
    (resolve : PaletteEntry → Except WorldError BlockId)
    (bytes : List Nat) (at_ : Vector2) (s : ChunkStatus)
    (h1 : parseStatus bytes = .ok s) (h2 : s ≠ ChunkStatus.Full) :
    ChunkData.from_bytes world_height parseStatus parseNbt resolve bytes at_ =
      .err (WorldError.ChunkNotGenerated ChunkNotGeneratedError.IncompleteGeneration) := by
  simp [ChunkData.from_bytes, h1, h2]

/-- Witness for C5 with a concrete non-terminal status. -/
theorem c5_completeness_gate_witness :
    ChunkData.from_bytes 1 pStatusEmpty pNbtBad resolveStd [] v00 =
      .err (WorldError.ChunkNotGenerated ChunkNotGeneratedError.IncompleteGeneration) :=
  c5_completeness_gate 1 pStatusEmpty pNbtBad resolveStd [] v00 ChunkStatus.Empty rfl
    (by decide)

/-!  C6 — malformed-input handling.  The claim as stated is false: a failure
of the status parse itself is unwrapped with `.expect(..)` in the source and
panics instead of returning an error. -/

/-- C6 counterexample: at an input whose status field fails to parse, the
decoder panics rather than returning an error. -/
theorem c6_status_parse_panics :
    ChunkData.from_bytes 1 pStatusBad pNbtBad resolveStd [] v00 =
      DOutcome.panic "Failed reading chunk status." := rfl

/-- C6 amended: when the status field parses (as the terminal status) but the
full tag-tree parse fails, the decoder returns the error carrying the
underlying parser's message; a failing status parse panics instead. -/
theorem c6_malformed_tag_error (world_height : Nat)
    (parseStatus : List Nat → Except String ChunkStatus)
    (parseNbt : List Nat → Except String ChunkNbt)
    (resolve : PaletteEntry → Except WorldError BlockId)
    (bytes : List Nat) (at_ : Vector2) (e : String)
    (h1 : parseStatus bytes = .ok ChunkStatus.Full)
    (h2 : parseNbt bytes = .error e) :
    ChunkData.from_bytes world_height parseStatus parseNbt resolve bytes at_ =
      .err (WorldError.ErrorDeserializingChunk e) := by
  simp [ChunkData.from_bytes, h1, h2]

/-- Witness for the amended C6. -/
theorem c6_malformed_tag_error_witness :
    ChunkData.from_bytes 1 pStatusFull pNbtBad resolveStd [] v00 =
      .err (WorldError.ErrorDeserializingChunk "bad tag") :=
  c6_malformed_tag_error 1 pStatusFull pNbtBad resolveStd [] v00 "bad tag" rfl rfl

/-!  C8 — sections without a block-state record. -/

/-- C8: a section whose block-state record is absent is skipped: the block
store and the running cursor are passed to the rest of the sections exactly
unchanged. -/
theorem c8_missing_block_states (resolve : PaletteEntry → Except WorldError BlockId)
    (s : ChunkSection) (rest : List ChunkSection) (cb : ChunkBlocks)
    (block_index : Nat) (h : s.block_states = none) :
    processSections resolve (s :: rest) cb block_index =
      processSections resolve rest cb block_index := by
  simp [processSections, h]

/-- Witness for C8 with a concrete record-less section. -/
theorem c8_missing_block_states_witness :
    processSections resolveStd [secNone] cbW 0 = processSections resolveStd [] cbW 0 :=
  c8_missing_block_states resolveStd secNone [] cbW 0 rfl

/-!  C9 — sections with a palette but no packed array.  The claim as stated is
false: the source advances the cursor by `SUBCHUNK_VOLUME` but does not fill
the subchunk with `palette[0]` (the blocks keep the default air value). -/

/-- C9 counterexample: a section with the one-entry stone palette and no
packed array leaves every block untouched (still air, not `palette[0]`),
while advancing the cursor by `SUBCHUNK_VOLUME`. -/
theorem c9_no_fill_counterexample :
    processSections resolveStd [secStoneNoData] cbW 0 =
      DOutcome.ok (cbW, SUBCHUNK_VOLUME) ∧
    resolveStd stoneEntry = Except.ok ⟨1⟩ ∧
    cbW.blocks[0]? = some BlockId.default ∧
    BlockId.default ≠ (⟨1⟩ : BlockId) := by
  refine ⟨by decide, by decide, by decide, by decide⟩

/-- C9 amended: a section whose block-state record is present but carries no
packed array leaves the block store unchanged and advances the running cursor
by exactly `SUBCHUNK_VOLUME` (provided its palette resolves). -/
theorem c9_advance_without_fill (resolve : PaletteEntry → Except WorldError BlockId)
    (s : ChunkSection) (rest : List ChunkSection) (cb : ChunkBlocks)
    (block_index : Nat) (st : ChunkSectionBlockStates) (pal : List BlockId)
    (h1 : s.block_states = some st) (h2 : st.data = none)
    (h3 : resolvePalette resolve st.palette = .ok pal) :
    processSections resolve (s :: rest) cb block_index =
      processSections resolve rest cb (block_index + SUBCHUNK_VOLUME) := by
  simp [processSections, h1, h3, h2]

/-- Witness for the amended C9. -/
theorem c9_advance_without_fill_witness :
    processSections resolveStd [secStoneNoData] cbW 0 =
      processSections resolveStd [] cbW (0 + SUBCHUNK_VOLUME) :=
  c9_advance_without_fill resolveStd secStoneNoData [] cbW 0 ⟨none, [stoneEntry]⟩
    [⟨1⟩] rfl rfl (by decide)

/-!  C10 — unguarded palette indexing. -/

/-- C10: an input that passes the completeness gate and whose palette resolves
(one section, palette length 1, one packed word carrying the 4-bit field
value 1) makes the decoder index the palette out of bounds and panic instead
of returning an error. -/
theorem c10_palette_index_panic :
    ChunkData.from_bytes 1 pStatusFull pNbtC10 resolveStd [] v00 =
      DOutcome.panic "index out of bounds" := by decide

/-!  C1 — wire-codec round trip.  The claim is the intended contract, but the
reader iterates `0..CHUNK_VOLUME` for both heightmaps instead of honouring the
length prefix it just read, so decoding the encoding of a chunk with the
standard 37-word heightmaps fails on truncated input. -/

/-- C1: decoding the encoding of a chunk whose block array has length exactly
`CHUNK_VOLUME` (world height 1) and whose heightmaps have the standard 37
words does not succeed. -/
theorem c1_roundtrip_fails_at_standard_heightmap :
    exceptIsOk (ChunkData.read_from 1 (ChunkData.write_to chunkC1)) = false := by decide

/-!  C2 — subchunk boundary containment. -/

/-- Every successful run of the per-word field loop keeps the cursor at or
below the next multiple `B` of `SUBCHUNK_VOLUME`, stays strictly below it when
it did not break, and never writes at or beyond `B`. -/
theorem unpackFields_bound (palette : List BlockId) (w u B : Nat)
    (hB : B % SUBCHUNK_VOLUME = 0) :
    ∀ (fields : List Nat) (cb : ChunkBlocks) (i : Nat) (cb' : ChunkBlocks)
      (i' : Nat) (brk : Bool), i < B →
      unpackFields palette w u fields cb i = .ok (cb', i', brk) →
      i' ≤ B ∧ (brk = false → i' < B) ∧
        ∀ j, B ≤ j → cb'.blocks[j]? = cb.blocks[j]? := by
  intro fields
  induction fields with
  | nil =>
    intro cb i cb' i' brk hi h
    simp only [unpackFields, DOutcome.ok.injEq, Prod.mk.injEq] at h
    obtain ⟨h1, h2, h3⟩ := h
    subst h1; subst h2; subst h3
    exact ⟨le_of_lt hi, fun _ => hi, fun j _ => rfl⟩
  | cons fi rest ih =>
    intro cb i cb' i' brk hi h
    simp only [unpackFields] at h
    split at h
    next => exact absurd h (by simp)
    next b hp =>
      split at h
      next => exact absurd h (by simp)
      next old cb1 hs =>
        have hblocks : cb1.blocks =
            cb.blocks.set (ChunkBlocks.convert_index (coordsOfIndex i)) b :=
          set_block_ok_inv hs
        have hple := convert_coordsOfIndex_le i
        have hpres : ∀ j, B ≤ j → cb1.blocks[j]? = cb.blocks[j]? := by
          intro j hj
          rw [hblocks]
          exact List.getElem?_set_ne (by omega)
        split at h
        next hb =>
          simp only [DOutcome.ok.injEq, Prod.mk.injEq] at h
          obtain ⟨h1, h2, h3⟩ := h
          subst h1; subst h2; subst h3
          exact ⟨by omega, by simp, hpres⟩
        next hb =>
          have hi1 : i + 1 < B := by
            rcases Nat.lt_or_ge (i + 1) B with h1 | h1
            · exact h1
            · have hEq : B = i + 1 := by omega
              rw [← hEq] at hb
              exact absurd hB hb
          obtain ⟨ha, hbk, hpr⟩ := ih cb1 (i + 1) cb' i' brk hi1 h
          exact ⟨ha, hbk, fun j hj => (hpr j hj).trans (hpres j hj)⟩

/-- Every successful run of the word loop keeps the cursor at or below the
next multiple `B` of `SUBCHUNK_VOLUME` and never writes at or beyond `B`. -/
theorem unpackWords_bound (palette : List BlockId) (w B : Nat)
    (hB : B % SUBCHUNK_VOLUME = 0) :
    ∀ (ws : List Int) (cb : ChunkBlocks) (i : Nat) (cb' : ChunkBlocks) (i' : Nat),
      i < B → unpackWords palette w ws cb i = .ok (cb', i') →
      i' ≤ B ∧ ∀ j, B ≤ j → cb'.blocks[j]? = cb.blocks[j]? := by
  intro ws
  induction ws with
  | nil =>
    intro cb i cb' i' hi h
    simp only [unpackWords, DOutcome.ok.injEq, Prod.mk.injEq] at h
    obtain ⟨h1, h2⟩ := h
    subst h1; subst h2
    exact ⟨le_of_lt hi, fun j _ => rfl⟩
  | cons word ws ih =>
    intro cb i cb' i' hi h
    simp only [unpackWords] at h
    split at h
    next => exact absurd h (by simp)
    next => exact absurd h (by simp)
    next cb1 i1 hf =>
      obtain ⟨hle, _, hpres⟩ :=
        unpackFields_bound palette w _ B hB _ cb i cb1 i1 true hi hf
      simp only [DOutcome.ok.injEq, Prod.mk.injEq] at h
      obtain ⟨h1, h2⟩ := h
      subst h1; subst h2
      exact ⟨hle, hpres⟩
    next cb1 i1 hf =>
      obtain ⟨_, hbrk, hpres⟩ :=
        unpackFields_bound palette w _ B hB _ cb i cb1 i1 false hi hf
      obtain ⟨h1, h2⟩ := ih cb1 i1 cb' i' (hbrk rfl) h
      exact ⟨h1, fun j hj => (h2 j hj).trans (hpres j hj)⟩

/-- C2: for every palette and width, a successful unpack of one section's
packed words stops the cursor at or before the next multiple of
`SUBCHUNK_VOLUME` after the starting cursor, and leaves every block at or
beyond that boundary — in particular every block at or beyond
`block_index + SUBCHUNK_VOLUME` — untouched. -/
theorem c2_subchunk_boundary (palette : List BlockId) (w : Nat) (data : List Int)
    (cb : ChunkBlocks) (block_index : Nat) (cb' : ChunkBlocks) (block_index' : Nat)
    (h : unpackWords palette w data cb block_index = .ok (cb', block_index')) :
    block_index' ≤ block_index + (SUBCHUNK_VOLUME - block_index % SUBCHUNK_VOLUME) ∧
    (∀ j, block_index + (SUBCHUNK_VOLUME - block_index % SUBCHUNK_VOLUME) ≤ j →
      cb'.blocks[j]? = cb.blocks[j]?) ∧
    (∀ j, block_index + SUBCHUNK_VOLUME ≤ j →
      cb'.blocks[j]? = cb.blocks[j]?) := by
  have hV : SUBCHUNK_VOLUME = 4096 := by decide
  have hB : (block_index + (SUBCHUNK_VOLUME - block_index % SUBCHUNK_VOLUME))
      % SUBCHUNK_VOLUME = 0 := by
    rw [hV]; omega
  have hlt : block_index <
      block_index + (SUBCHUNK_VOLUME - block_index % SUBCHUNK_VOLUME) := by
    rw [hV]; omega
  obtain ⟨h1, h2⟩ :=
    unpackWords_bound palette w _ hB data cb block_index cb' block_index' hlt h
  refine ⟨h1, h2, fun j hj => h2 j ?_⟩
  rw [hV] at hj ⊢
  omega

/-- Witness for C2: one word of width 4 writes 16 blocks from cursor 0 and
leaves position 4096 untouched. -/
theorem c2_subchunk_boundary_witness :
    (16 ≤ 0 + (SUBCHUNK_VOLUME - 0 % SUBCHUNK_VOLUME)) ∧
    cb20r.blocks[4096]? = cb20.blocks[4096]? :=
  ⟨(c2_subchunk_boundary palW 4 [0] cb20 0 cb20r 16 (by decide)).1,
   (c2_subchunk_boundary palW 4 [0] cb20 0 cb20r 16 (by decide)).2.2 4096 (by decide)⟩

/-!  C7 — unresolvable palette entries abort the whole decode. -/

/-- If some entry of a palette fails to resolve, the palette resolution as a
whole returns an error. -/
theorem resolvePalette_err_of_bad (resolve : PaletteEntry → Except WorldError BlockId) :
    ∀ (ps : List PaletteEntry) (p : PaletteEntry), p ∈ ps →
      exceptIsOk (resolve p) = false →
      ∃ e, resolvePalette resolve ps = .error e := by
  intro ps
  induction ps with
  | nil => intro p hp; cases hp
  | cons q qs ih =>
    intro p hp hbad
    cases hq : resolve q with
    | error e => exact ⟨e, by simp [resolvePalette, hq]⟩
    | ok b =>
      rcases List.mem_cons.mp hp with rfl | hmem
      · rw [hq] at hbad; simp [exceptIsOk] at hbad
      · obtain ⟨e, he⟩ := ih p hmem hbad
        exact ⟨e, by simp [resolvePalette, hq, he]⟩

/-- A successful section loop implies that every palette of every section
with a block-state record resolved successfully. -/
theorem processSections_ok_resolves (resolve : PaletteEntry → Except WorldError BlockId) :
    ∀ (sections : List ChunkSection) (cb : ChunkBlocks) (i : Nat)
      (out : ChunkBlocks × Nat),
      processSections resolve sections cb i = .ok out →
      ∀ s ∈ sections, ∀ st, s.block_states = some st →
        ∃ pal, resolvePalette resolve st.palette = .ok pal := by
  intro sections
  induction sections with
  | nil => intro cb i out h s hs; cases hs
  | cons s0 rest ih =>
    intro cb i out h s hs st hst
    simp only [processSections] at h
    split at h
    next hbs =>
      rcases List.mem_cons.mp hs with rfl | hmem
      · rw [hbs] at hst; cases hst
      · exact ih cb i out h s hmem st hst
    next bs0 hbs =>
      split at h
      next e he => exact absurd h (by simp)
      next pal hpal =>
        have hres0 : ∃ pal0, resolvePalette resolve bs0.palette = .ok pal0 := ⟨pal, hpal⟩
        split at h
        next hdata =>
          rcases List.mem_cons.mp hs with rfl | hmem
          · rw [hbs] at hst; injection hst with h'; subst h'; exact hres0
          · exact ih cb (i + SUBCHUNK_VOLUME) out h s hmem st hst
        next d hdata =>
          split at h
          next => exact absurd h (by simp)
          next => exact absurd h (by simp)
          next cb1 i1 hu =>
            rcases List.mem_cons.mp hs with rfl | hmem
            · rw [hbs] at hst; injection hst with h'; subst h'; exact hres0
            · exact ih cb1 i1 out h s hmem st hst

/-- C7: if any palette entry of any section with a block-state record cannot
be resolved by the registry, the section loop never returns a chunk; and when
that section is the first one, the loop fails with exactly the resolution
error of its palette. -/
theorem c7_unknown_block_total (resolve : PaletteEntry → Except WorldError BlockId)
    (sections : List ChunkSection) (cb : ChunkBlocks) (block_index : Nat)
    (s : ChunkSection) (st : ChunkSectionBlockStates) (p : PaletteEntry)
    (hs : s ∈ sections) (hst : s.block_states = some st) (hp : p ∈ st.palette)
    (hbad : exceptIsOk (resolve p) = false) :
    (∀ out, processSections resolve sections cb block_index ≠ DOutcome.ok out) ∧
    (∀ (rest : List ChunkSection) (cb2 : ChunkBlocks) (i2 : Nat), ∃ e,
      resolvePalette resolve st.palette = .error e ∧
      processSections resolve (s :: rest) cb2 i2 = DOutcome.err e) := by
  obtain ⟨e, he⟩ := resolvePalette_err_of_bad resolve st.palette p hp hbad
  constructor
  · intro out hok
    obtain ⟨pal, hpal⟩ :=
      processSections_ok_resolves resolve sections cb block_index out hok s hs st hst
    rw [hpal] at he
    cases he
  · intro rest cb2 i2
    exact ⟨e, he, by simp [processSections, hst, he]⟩

/-- Witness for C7: a one-section chunk whose palette holds an entry the
registry fixture cannot resolve is never decoded into a chunk. -/
theorem c7_unknown_block_total_witness :
    processSections resolveStd [secBad] cbW 0 ≠ DOutcome.ok (cbW, 0) :=
  (c7_unknown_block_total resolveStd [secBad] cbW 0 secBad ⟨none, [badEntry]⟩ badEntry
    (by decide) rfl (by decide) (by decide)).1 (cbW, 0)

end Pumpkin
